import Mathlib

/-!
Shallow embedding of the `kt_api` courses service (src/index.js, the
pg-backed variant that includes the `/courses/reset-sequence` route).

The relational table `courses` is modelled as a list of rows together with
the auto-increment sequence value and a flag recording whether the primary
key constraint `courses_pkey` is currently present.  Each Express handler
is translated to a pure function from the request data and the database
state to the new state and the JSON response.  The reset-sequence route,
the one multi-step fallible procedure, is modelled with an explicit oracle
`failAt : Nat -> Bool` saying which of its SQL statements (numbered in
execution order) fail, and it records the trace of attempted statements.
-/

/-- A row of the `courses` table (schema from the CREATE TABLE statement):
`id SERIAL PRIMARY KEY, title TEXT NOT NULL, description TEXT,
long_description TEXT, duration TEXT, price NUMERIC, level TEXT,
image_url TEXT, created_at TIMESTAMP DEFAULT NOW()`.
Timestamps and NUMERIC are modelled as naturals / integers. -/
structure Course where
  id : Nat
  title : String
  description : Option String
  long_description : Option String
  duration : Option String
  price : Option Int
  level : Option String
  image_url : Option String
  created_at : Nat
deriving DecidableEq, Repr

/-- Database state: the multiset of rows (as a list, in storage order),
the next value the SERIAL sequence `courses_id_seq` will yield, and
whether the `courses_pkey` constraint is present. -/
structure DB where
  rows : List Course
  seq : Nat
  hasPkey : Bool
deriving DecidableEq, Repr

/-- A JSON request body for POST/PUT `/courses`.  The handler destructures
only the seven mutable fields; any `id` or `created_at` the client sends
sits in the body but is never read by the INSERT/UPDATE statements. -/
structure Body where
  title : Option String
  description : Option String
  long_description : Option String
  duration : Option String
  price : Option Int
  level : Option String
  image_url : Option String
  id : Option Nat
  created_at : Option Nat
deriving DecidableEq, Repr

/-- The JSON responses the handlers produce, tagged with enough structure
to read off the HTTP status and the body fields the claims mention. -/
inductive Resp where
  /-- 404 `{error: "Course not found", id}` — echoes the requested id. -/
  | notFound (id : Nat)
  /-- 400 `{error: "Title is required", received: {title}}`. -/
  | validationErr (title : Option String)
  /-- 200, the single course row. -/
  | okCourse (c : Course)
  /-- 200, the array of course rows. -/
  | okCourses (cs : List Course)
  /-- 201 `{message, data, success: true}` for POST /courses. -/
  | created (c : Course)
  /-- 200 `{message, data, success: true}` for PUT /courses/:id. -/
  | okUpdated (c : Course)
  /-- 200 `{message, data, success: true}` for DELETE /courses/:id. -/
  | okDeleted (c : Course)
  /-- 200 `{message, success: true}` — reset-sequence on an empty table;
  note the body carries no `totalCourses` and no `nextId` field. -/
  | resetOkEmpty
  /-- 200 `{message, success: true, totalCourses, nextId}`. -/
  | resetOk (totalCourses nextId : Nat)
  /-- 500 `{error, details, success: false}`. -/
  | err500 (error : String)
deriving DecidableEq, Repr

/-- The HTTP status code of a response. -/
def Resp.status : Resp → Nat
  | .notFound _ => 404
  | .validationErr _ => 400
  | .created _ => 201
  | .err500 _ => 500
  | _ => 200

/-- Whether the JSON body has `success: true` (error envelopes carry
`success: false`; plain 200 payloads without the flag count as success). -/
def Resp.isSuccess : Resp → Bool
  | .notFound _ => false
  | .validationErr _ => false
  | .err500 _ => false
  | _ => true

/-- The `totalCourses` field of the response body, when present. -/
def Resp.totalCourses : Resp → Option Nat
  | .resetOk n _ => some n
  | _ => none

/-- The `nextId` field of the response body, when present. -/
def Resp.nextId : Resp → Option Nat
  | .resetOk _ n => some n
  | _ => none

/-- `SELECT * FROM courses WHERE id = $1`. -/
def sqlSelectById (id : Nat) (rows : List Course) : List Course :=
  rows.filter (fun r => r.id == id)

/-- `SELECT * FROM courses ORDER BY id ASC` (a stable sort on `id`). -/
def sortById (rows : List Course) : List Course :=
  rows.insertionSort (fun a b => a.id ≤ b.id)

/-- `SELECT * FROM courses ORDER BY created_at ASC` (stable sort). -/
def sortByCreatedAt (rows : List Course) : List Course :=
  rows.insertionSort (fun a b => a.created_at ≤ b.created_at)

instance : IsTotal Course (fun a b => a.id ≤ b.id) :=
  ⟨fun a b => Nat.le_total a.id b.id⟩

instance : IsTrans Course (fun a b => a.id ≤ b.id) :=
  ⟨fun _ _ _ h1 h2 => Nat.le_trans h1 h2⟩

/-- `UPDATE courses SET id = $1 WHERE id = $2` — every row whose current
id equals `oldId` gets id `newId`; all other rows are untouched. -/
def sqlUpdateId (newId oldId : Nat) (rows : List Course) : List Course :=
  rows.map (fun r => if r.id = oldId then { r with id := newId } else r)

/-- JavaScript `String.prototype.trim`: strip leading and trailing
whitespace, modelled on the string's character list. -/
def jsTrim (s : String) : String :=
  String.mk (((s.data.dropWhile Char.isWhitespace).reverse.dropWhile
    Char.isWhitespace).reverse)

/-- The title validation from the POST/PUT handlers:
`if (!title || title.trim() === '')`.  An absent title is falsy, as is the
empty string; otherwise the trimmed string is compared with `''`. -/
def titleInvalid : Option String → Bool
  | none => true
  | some t => (t == ("")) || (jsTrim t == (""))

/-- GET `/courses`: one SELECT ordered by id, returned as-is. -/
def getCourses (db : DB) : Resp :=
  Resp.okCourses (sortById db.rows)

/-- GET `/courses/:id`: SELECT by id; empty result yields 404 echoing the
id, otherwise the first row is returned. -/
def getCourse (db : DB) (id : Nat) : Resp :=
  match sqlSelectById id db.rows with
  | [] => Resp.notFound id
  | c :: _ => Resp.okCourse c

/-- POST `/courses`: validate the title, then
`INSERT INTO courses (title, description, long_description, duration,
price, level, image_url) VALUES ($1,...,$7) RETURNING *`.  The store
assigns `id` from the sequence and `created_at` from the clock (`now`). -/
def createCourse (db : DB) (body : Body) (now : Nat) : DB × Resp :=
  if titleInvalid body.title then
    (db, Resp.validationErr body.title)
  else
    let c : Course :=
      { id := db.seq
        title := body.title.getD ("")
        description := body.description
        long_description := body.long_description
        duration := body.duration
        price := body.price
        level := body.level
        image_url := body.image_url
        created_at := now }
    ({ db with rows := db.rows ++ [c], seq := db.seq + 1 }, Resp.created c)

/-- PUT `/courses/:id`: validate the title, check existence with a SELECT,
then `UPDATE courses SET title = $1, ..., image_url = $7 WHERE id = $8
RETURNING *` — `id` and `created_at` are not in the SET list. -/
def updateCourse (db : DB) (id : Nat) (body : Body) : DB × Resp :=
  if titleInvalid body.title then
    (db, Resp.validationErr body.title)
  else
    match sqlSelectById id db.rows with
    | [] => (db, Resp.notFound id)
    | _ :: _ =>
      let rows2 := db.rows.map (fun r =>
        if r.id = id then
          { r with
            title := body.title.getD ("")
            description := body.description
            long_description := body.long_description
            duration := body.duration
            price := body.price
            level := body.level
            image_url := body.image_url }
        else r)
      match sqlSelectById id rows2 with
      | c :: _ => ({ db with rows := rows2 }, Resp.okUpdated c)
      | [] => ({ db with rows := rows2 }, Resp.err500 ("Failed to update course"))

/-- DELETE `/courses/:id`: check existence with a SELECT, then
`DELETE FROM courses WHERE id = $1 RETURNING *`. -/
def deleteCourse (db : DB) (id : Nat) : DB × Resp :=
  match sqlSelectById id db.rows with
  | [] => (db, Resp.notFound id)
  | c :: _ =>
    ({ db with rows := db.rows.filter (fun r => !(r.id == id)) }, Resp.okDeleted c)

/-- The SQL statements the reset-sequence route issues, for the trace. -/
inductive Query where
  | selectAllByCreatedAt
  | dropPkeyConstraint
  | updateId (newId oldId : Nat)
  | addPkeyConstraint
  | restartSeq (n : Nat)
deriving DecidableEq, Repr

/-- Outcome of one run of the reset-sequence route. -/
structure ResetRun where
  /-- Database state after the run. -/
  db : DB
  /-- The SQL statements attempted, in order (including the catch
  handler's restore attempt). -/
  trace : List Query
  /-- Whether the catch handler ran (i.e. some statement failed). -/
  caught : Bool
  /-- Whether the catch handler attempted to re-add `courses_pkey`. -/
  restoreAttempted : Bool
  /-- The JSON response sent. -/
  resp : Resp
deriving Repr

/-- The catch handler of the reset-sequence route: it tries
`ALTER TABLE courses ADD CONSTRAINT courses_pkey PRIMARY KEY (id)` (its
own failure is only logged), then sends 500
`{error: "Failed to reset sequence", details, success: false}`. -/
def resetCatch (failAt : Nat → Bool) (db : DB) (tr : List Query) (k : Nat) : ResetRun :=
  { db := if failAt k then db else { db with hasPkey := true }
    trace := tr ++ [Query.addPkeyConstraint]
    caught := true
    restoreAttempted := true
    resp := Resp.err500 ("Failed to reset sequence") }

/-- The renumbering loop: `for (let i = 0; i < courses.length; i++)` with
`newId = i + 1`, `oldId = courses[i].id`, issuing
`UPDATE courses SET id = $1 WHERE id = $2`.  `k` numbers the statements of
the whole run; the loop stops at the first failed statement.  Returns the
database, the trace, the next statement number, and whether every update
succeeded. -/
def resetLoop (failAt : Nat → Bool) :
    List Course → Nat → Nat → DB → List Query → DB × List Query × Nat × Bool
  | [], _, k, db, tr => (db, tr, k, true)
  | c :: cs, newId, k, db, tr =>
    if failAt k then
      (db, tr ++ [Query.updateId newId c.id], k + 1, false)
    else
      resetLoop failAt cs (newId + 1) (k + 1)
        { db with rows := sqlUpdateId newId c.id db.rows }
        (tr ++ [Query.updateId newId c.id])

/-- POST `/courses/reset-sequence`: read all rows ordered by `created_at`;
if none, restart the sequence at 1 and answer without touching a row;
otherwise drop `courses_pkey`, renumber the rows to 1..N in creation
order, re-add `courses_pkey`, restart the sequence at N+1, and answer
`{totalCourses: N, nextId: N+1}`.  Any failure lands in `resetCatch`. -/
def resetSequenceRun (failAt : Nat → Bool) (db : DB) : ResetRun :=
  if failAt 0 then
    resetCatch failAt db [Query.selectAllByCreatedAt] 1
  else
    let courses := sortByCreatedAt db.rows
    if courses.length = 0 then
      if failAt 1 then
        resetCatch failAt db [Query.selectAllByCreatedAt, Query.restartSeq 1] 2
      else
        { db := { db with seq := 1 }
          trace := [Query.selectAllByCreatedAt, Query.restartSeq 1]
          caught := false
          restoreAttempted := false
          resp := Resp.resetOkEmpty }
    else
      if failAt 1 then
        resetCatch failAt db [Query.selectAllByCreatedAt, Query.dropPkeyConstraint] 2
      else
        match resetLoop failAt courses 1 2 { db with hasPkey := false }
            [Query.selectAllByCreatedAt, Query.dropPkeyConstraint] with
        | (db1, tr1, k1, false) => resetCatch failAt db1 tr1 k1
        | (db1, tr1, k1, true) =>
          if failAt k1 then
            resetCatch failAt db1 (tr1 ++ [Query.addPkeyConstraint]) (k1 + 1)
          else
            if failAt (k1 + 1) then
              resetCatch failAt { db1 with hasPkey := true }
                (tr1 ++ [Query.addPkeyConstraint, Query.restartSeq (courses.length + 1)])
                (k1 + 2)
            else
              { db := { db1 with hasPkey := true, seq := courses.length + 1 }
                trace := tr1 ++ [Query.addPkeyConstraint, Query.restartSeq (courses.length + 1)]
                caught := false
                restoreAttempted := false
                resp := Resp.resetOk courses.length (courses.length + 1) }

/-- The oracle under which every SQL statement succeeds. -/
def noFail : Nat → Bool := fun _ => false

/-- The intended result of the renumbering loop: the same rows in the same
order, with ids reassigned consecutively starting from `k` and every other
field untouched. -/
def reindexFrom : Nat → List Course → List Course
  | _, [] => []
  | k, c :: cs => { c with id := k } :: reindexFrom (k + 1) cs

/-- The trace the renumbering loop emits when every update succeeds. -/
def loopTrace : Nat → List Course → List Query
  | _, [] => []
  | newId, c :: cs => Query.updateId newId c.id :: loopTrace (newId + 1) cs

/-- The row the INSERT of POST `/courses` produces (for stating lemmas):
id from the sequence, `created_at` from the clock, the seven mutable
columns from the request body. -/
def mkCreated (db : DB) (body : Body) (now : Nat) : Course :=
  { id := db.seq, title := body.title.getD (""), description := body.description,
    long_description := body.long_description, duration := body.duration,
    price := body.price, level := body.level, image_url := body.image_url,
    created_at := now }

/-- The row rewrite the UPDATE of PUT `/courses/:id` applies to the
targeted row (for stating lemmas): the seven mutable columns are
overwritten, `id` and `created_at` are kept. -/
def applyUpdate (body : Body) (id : Nat) (r : Course) : Course :=
  if r.id = id then
    { r with
      title := body.title.getD ("")
      description := body.description
      long_description := body.long_description
      duration := body.duration
      price := body.price
      level := body.level
      image_url := body.image_url }
  else r

/-! ### Concrete sample data for witnesses and counterexamples -/

/-- A sample row with the given id and creation timestamp. -/
def sampleRow (i t : Nat) : Course :=
  { id := i, title := "Course", description := none, long_description := none,
    duration := none, price := none, level := none, image_url := none, created_at := t }

/-- Ids `{3,7,9}` created in that temporal order — the spec's renumbering
example. -/
def sampleDb379 : DB :=
  { rows := [sampleRow 3 10, sampleRow 7 20, sampleRow 9 30], seq := 10, hasPkey := true }

/-- An empty table whose sequence has advanced past 1. -/
def sampleEmptyDb : DB := { rows := [], seq := 5, hasPkey := true }

/-- Two rows with ids 1 and 2. -/
def sampleDb2 : DB :=
  { rows := [sampleRow 1 10, sampleRow 2 20], seq := 3, hasPkey := true }

/-- A request body carrying only a title. -/
def sampleBody (t : Option String) : Body :=
  { title := t, description := none, long_description := none, duration := none,
    price := none, level := none, image_url := none, id := none, created_at := none }

/-- A request body that also smuggles a client-chosen `id` and
`created_at`. -/
def sampleBodyWithClientId : Body :=
  { sampleBody (some ("T")) with id := some 999, created_at := some 777 }

/-- An oracle failing exactly the statement numbered 3: on `sampleDb379`
that is the second UPDATE of the renumbering loop, after the primary key
constraint was dropped. -/
def failAtThree : Nat → Bool := fun k => k == 3

/-! ### Helper lemmas -/

lemma sqlSelectById_eq_nil (id : Nat) (rows : List Course)
    (h : ∀ r ∈ rows, r.id ≠ id) : sqlSelectById id rows = [] := by
  induction rows with
  | nil => rfl
  | cons a t ih =>
    have ha : ¬ (a.id == id) = true := by
      simpa using h a (List.mem_cons_self a t)
    have ht := ih (fun r hr => h r (List.mem_cons_of_mem a hr))
    simp only [sqlSelectById, List.filter_cons] at ht ⊢
    rw [if_neg ha]
    exact ht

lemma sqlUpdateId_of_ne (newId oldId : Nat) (l : List Course)
    (h : ∀ r ∈ l, r.id ≠ oldId) : sqlUpdateId newId oldId l = l := by
  induction l with
  | nil => rfl
  | cons a t ih =>
    have ha : a.id ≠ oldId := h a (List.mem_cons_self a t)
    have ht := ih (fun r hr => h r (List.mem_cons_of_mem a hr))
    simp only [sqlUpdateId, List.map_cons] at ht ⊢
    rw [if_neg ha]
    exact congrArg _ ht

lemma sqlUpdateId_mid (newId : Nat) (c : Course) (done cs : List Course)
    (hdone : ∀ r ∈ done, r.id ≠ c.id)
    (hcs : ∀ r ∈ cs, r.id ≠ c.id) :
    sqlUpdateId newId c.id (done ++ c :: cs) = done ++ { c with id := newId } :: cs := by
  have h1 : sqlUpdateId newId c.id done = done := sqlUpdateId_of_ne _ _ _ hdone
  have h2 : sqlUpdateId newId c.id cs = cs := sqlUpdateId_of_ne _ _ _ hcs
  simp only [sqlUpdateId, List.map_append, List.map_cons] at h1 h2 ⊢
  rw [h1, h2]
  simp

lemma reindexFrom_map_id : ∀ (k : Nat) (cs : List Course),
    (reindexFrom k cs).map Course.id = List.range' k cs.length
  | _, [] => rfl
  | k, c :: cs => by
    simp only [reindexFrom, List.map_cons, List.length_cons, List.range'_succ]
    exact congrArg _ (reindexFrom_map_id (k + 1) cs)

lemma reindexFrom_length : ∀ (k : Nat) (cs : List Course),
    (reindexFrom k cs).length = cs.length
  | _, [] => rfl
  | k, _ :: cs => congrArg Nat.succ (reindexFrom_length (k + 1) cs)

lemma resetLoop_noFail_renumbers :
    ∀ (cs done : List Course) (newId k : Nat) (db : DB) (tr : List Query),
    db.rows = done ++ cs →
    (∀ r ∈ done, r.id < newId) →
    cs.Pairwise (fun a b => a.id < b.id) →
    (∀ r ∈ cs, newId ≤ r.id) →
    resetLoop noFail cs newId k db tr =
      ({ db with rows := done ++ reindexFrom newId cs },
        tr ++ loopTrace newId cs, k + cs.length, true) := by
  intro cs
  induction cs with
  | nil =>
    intro done newId k db tr hrows _ _ _
    simp [resetLoop, reindexFrom, loopTrace, ← hrows]
  | cons c cs ih =>
    intro done newId k db tr hrows hdone hpw hge
    have hcid : newId ≤ c.id := hge c (List.mem_cons_self c cs)
    have hcs_gt : ∀ r ∈ cs, c.id < r.id := (List.pairwise_cons.mp hpw).1
    have hupd : sqlUpdateId newId c.id db.rows
        = done ++ { c with id := newId } :: cs := by
      rw [hrows]
      exact sqlUpdateId_mid newId c done cs
        (fun r hr => Nat.ne_of_lt (Nat.lt_of_lt_of_le (hdone r hr) hcid))
        (fun r hr => (Nat.ne_of_lt (hcs_gt r hr)).symm)
    have step := ih (done ++ [{ c with id := newId }]) (newId + 1) (k + 1)
      { db with rows := sqlUpdateId newId c.id db.rows }
      (tr ++ [Query.updateId newId c.id])
      (by simp [hupd])
      (by
        intro r hr
        rcases List.mem_append.mp hr with h | h
        · exact Nat.lt_succ_of_lt (hdone r h)
        · simp only [List.mem_singleton] at h
          subst h
          exact Nat.lt_succ_self _)
      (List.pairwise_cons.mp hpw).2
      (fun r hr => Nat.succ_le_of_lt (Nat.lt_of_le_of_lt hcid (hcs_gt r hr)))
    simp only [resetLoop, noFail, Bool.false_eq_true, if_false]
    rw [step]
    simp only [reindexFrom, loopTrace, List.append_assoc, List.singleton_append,
      List.cons_append, List.length_cons, List.nil_append, Prod.mk.injEq]
    exact ⟨trivial, trivial, by omega, trivial⟩

lemma resetSequenceRun_noFail_empty (db : DB) (h : db.rows = []) :
    resetSequenceRun noFail db =
      { db := { db with seq := 1 }
        trace := [Query.selectAllByCreatedAt, Query.restartSeq 1]
        caught := false
        restoreAttempted := false
        resp := Resp.resetOkEmpty } := by
  simp [resetSequenceRun, noFail, sortByCreatedAt, h, List.insertionSort]

lemma resetSequenceRun_noFail_nonempty (db : DB) (hne : db.rows ≠ [])
    (hsort : db.rows.Pairwise (fun a b => a.created_at ≤ b.created_at))
    (hinc : db.rows.Pairwise (fun a b => a.id < b.id))
    (hpos : ∀ r ∈ db.rows, 1 ≤ r.id) :
    resetSequenceRun noFail db =
      { db := { rows := reindexFrom 1 db.rows, seq := db.rows.length + 1, hasPkey := true }
        trace := [Query.selectAllByCreatedAt, Query.dropPkeyConstraint]
          ++ loopTrace 1 db.rows
          ++ [Query.addPkeyConstraint, Query.restartSeq (db.rows.length + 1)]
        caught := false
        restoreAttempted := false
        resp := Resp.resetOk db.rows.length (db.rows.length + 1) } := by
  have hsorteq : sortByCreatedAt db.rows = db.rows :=
    List.Sorted.insertionSort_eq hsort
  have hlen : ¬ (db.rows.length = 0) := fun h0 => hne (List.length_eq_zero.mp h0)
  have hloop := resetLoop_noFail_renumbers db.rows [] 1 2 { db with hasPkey := false }
    [Query.selectAllByCreatedAt, Query.dropPkeyConstraint] (by simp) (by simp) hinc hpos
  have hno : ∀ k, noFail k = false := fun _ => rfl
  simp [resetSequenceRun, hno, hsorteq, hlen, hloop, List.append_assoc]


lemma resetLoop_ok_of_noFail (cs : List Course) :
    ∀ (newId k : Nat) (db : DB) (tr : List Query),
    ∃ db1 tr1 k1, resetLoop noFail cs newId k db tr = (db1, tr1, k1, true) := by
  induction cs with
  | nil =>
    intro newId k db tr
    exact ⟨db, tr, k, rfl⟩
  | cons c cs ih =>
    intro newId k db tr
    obtain ⟨db1, tr1, k1, h⟩ := ih (newId + 1) (k + 1)
      { db with rows := sqlUpdateId newId c.id db.rows }
      (tr ++ [Query.updateId newId c.id])
    exact ⟨db1, tr1, k1, by simpa [resetLoop, noFail] using h⟩

lemma resetSequenceRun_catch_or_ok (failAt : Nat → Bool) (db : DB) :
    (∃ db0 tr k, resetSequenceRun failAt db = resetCatch failAt db0 tr k) ∨
      (resetSequenceRun failAt db).caught = false := by
  unfold resetSequenceRun
  dsimp only
  split
  · exact Or.inl ⟨_, _, _, rfl⟩
  · split
    · split
      · exact Or.inl ⟨_, _, _, rfl⟩
      · exact Or.inr rfl
    · split
      · exact Or.inl ⟨_, _, _, rfl⟩
      · split
        · exact Or.inl ⟨_, _, _, rfl⟩
        · split
          · exact Or.inl ⟨_, _, _, rfl⟩
          · split
            · exact Or.inl ⟨_, _, _, rfl⟩
            · exact Or.inr rfl

lemma createCourse_success (db : DB) (body : Body) (now : Nat)
    (hv : titleInvalid body.title = false) :
    createCourse db body now =
      ({ db with rows := db.rows ++ [mkCreated db body now], seq := db.seq + 1 },
        Resp.created (mkCreated db body now)) := by
  simp [createCourse, mkCreated, hv]

lemma updateCourse_success_rows (db : DB) (id : Nat) (body : Body)
    (hv : titleInvalid body.title = false)
    (hex : sqlSelectById id db.rows ≠ []) :
    ((updateCourse db id body).1).rows = db.rows.map (applyUpdate body id) := by
  unfold updateCourse
  rw [hv]
  simp only [Bool.false_eq_true, if_false]
  rcases hsel : sqlSelectById id db.rows with _ | ⟨c, cs⟩
  · exact absurd hsel hex
  · dsimp only
    split <;> simp [applyUpdate]

/-! ### Claim theorems -/

/-- C7: for every table state, the list operation returns exactly the set
of all stored courses, sorted ascending by id — the response is a
permutation of the stored rows (so after any sequence of creates and
deletes it is exactly the surviving rows), in ascending id order. -/
theorem list_returns_all_rows_sorted_by_id (db : DB) :
    getCourses db = Resp.okCourses (sortById db.rows) ∧
    (sortById db.rows).Perm db.rows ∧
    (sortById db.rows).Sorted (fun a b => a.id ≤ b.id) ∧
    ∀ c, c ∈ sortById db.rows ↔ c ∈ db.rows := by
  refine ⟨rfl, List.perm_insertionSort _ _, List.sorted_insertionSort _ _, fun c => ?_⟩
  exact (List.perm_insertionSort _ _).mem_iff

/-- C4: a create request whose title is absent, empty, or whitespace-only
after trimming fails with ValidationError (HTTP 400) and inserts nothing:
the database is returned untouched, the validation branch returning before
the INSERT statement is reached. -/
theorem create_invalid_title_validation_error (db : DB) (body : Body) (now : Nat)
    (h : body.title = none ∨ ∃ t, body.title = some t ∧ jsTrim t = ("")) :
    createCourse db body now = (db, Resp.validationErr body.title) ∧
    ((createCourse db body now).1).rows = db.rows ∧
    ((createCourse db body now).2).status = 400 ∧
    ((createCourse db body now).2).isSuccess = false := by
  have hv : titleInvalid body.title = true := by
    rcases h with h | ⟨t, ht, htr⟩
    · rw [h]; rfl
    · rw [ht]; simp [titleInvalid, htr]
  have he : createCourse db body now = (db, Resp.validationErr body.title) := by
    simp [createCourse, hv]
  exact ⟨he, by rw [he], by rw [he]; rfl, by rw [he]; rfl⟩

/-- C4 witness: a whitespace-only title (three spaces) is rejected with
400 and the table is unchanged. -/
theorem create_invalid_title_validation_error_witness :
    ((sampleBody (some ("   "))).title = none ∨
      ∃ t, (sampleBody (some ("   "))).title = some t ∧ jsTrim t = ("")) ∧
    (createCourse sampleDb2 (sampleBody (some ("   "))) 42 =
        (sampleDb2, Resp.validationErr (sampleBody (some ("   "))).title) ∧
      ((createCourse sampleDb2 (sampleBody (some ("   "))) 42).1).rows = sampleDb2.rows ∧
      ((createCourse sampleDb2 (sampleBody (some ("   "))) 42).2).status = 400 ∧
      ((createCourse sampleDb2 (sampleBody (some ("   "))) 42).2).isSuccess = false) :=
  ⟨Or.inr ⟨"   ", rfl, by decide⟩,
    create_invalid_title_validation_error sampleDb2 (sampleBody (some ("   "))) 42
      (Or.inr ⟨"   ", rfl, by decide⟩)⟩

/-- C3 counterexample: PUT on a nonexistent id with an empty title returns
400 ValidationError, not the 404 NotFound the claim requires for every
request body. -/
theorem update_missing_id_empty_title_returns_400_not_404 :
    (updateCourse sampleEmptyDb 5 (sampleBody (some ("")))).2 =
      Resp.validationErr (some ("")) ∧
    (updateCourse sampleEmptyDb 5 (sampleBody (some ("")))).2 ≠ Resp.notFound 5 ∧
    ((updateCourse sampleEmptyDb 5 (sampleBody (some ("")))).2).status = 400 := by
  decide

/-- C3 (amended): on an id absent from the table, GET and DELETE return
404 echoing the id with the table unchanged; PUT does so too provided the
body's title passes validation — with an invalid title the validation
check fires first and PUT returns 400 instead, still leaving the table
unchanged. -/
theorem missing_id_yields_not_found (db : DB) (id : Nat) (body : Body)
    (h : ∀ r ∈ db.rows, r.id ≠ id) :
    getCourse db id = Resp.notFound id ∧
    deleteCourse db id = (db, Resp.notFound id) ∧
    (titleInvalid body.title = false →
      updateCourse db id body = (db, Resp.notFound id)) ∧
    (titleInvalid body.title = true →
      updateCourse db id body = (db, Resp.validationErr body.title)) ∧
    (Resp.notFound id).status = 404 := by
  have hnil := sqlSelectById_eq_nil id db.rows h
  refine ⟨?_, ?_, ?_, ?_, rfl⟩
  · simp [getCourse, hnil]
  · simp [deleteCourse, hnil]
  · intro hv
    simp [updateCourse, hv, hnil]
  · intro hv
    simp [updateCourse, hv]

/-- C3 (amended) witness: id 5 is absent from the two-row table; GET and
DELETE give 404, and PUT with the valid title "T" gives 404 as well. -/
theorem missing_id_yields_not_found_witness :
    (∀ r ∈ sampleDb2.rows, r.id ≠ 5) ∧
    (getCourse sampleDb2 5 = Resp.notFound 5 ∧
      deleteCourse sampleDb2 5 = (sampleDb2, Resp.notFound 5) ∧
      (titleInvalid (sampleBody (some ("T"))).title = false →
        updateCourse sampleDb2 5 (sampleBody (some ("T"))) = (sampleDb2, Resp.notFound 5)) ∧
      (titleInvalid (sampleBody (some ("T"))).title = true →
        updateCourse sampleDb2 5 (sampleBody (some ("T"))) =
          (sampleDb2, Resp.validationErr (sampleBody (some ("T"))).title)) ∧
      (Resp.notFound 5).status = 404) :=
  ⟨by decide, missing_id_yields_not_found sampleDb2 5 (sampleBody (some ("T"))) (by decide)⟩

/-- C8: a successful update rewrites only the targeted row — every row at
a position whose id differs from the target is returned unchanged in every
field, and the row at the targeted id keeps its `id` and `created_at`.  -/
theorem update_frame_other_rows_unchanged (db : DB) (id : Nat) (body : Body)
    (hv : titleInvalid body.title = false)
    (hex : sqlSelectById id db.rows ≠ []) :
    ((updateCourse db id body).1).rows.length = db.rows.length ∧
    (∀ (i : Nat) (r : Course), db.rows[i]? = some r → r.id ≠ id →
      ((updateCourse db id body).1).rows[i]? = some r) ∧
    (∀ (i : Nat) (r : Course), db.rows[i]? = some r →
      ∃ r2, ((updateCourse db id body).1).rows[i]? = some r2 ∧
        r2.id = r.id ∧ r2.created_at = r.created_at) := by
  have hrows := updateCourse_success_rows db id body hv hex
  rw [hrows]
  refine ⟨List.length_map _ _, ?_, ?_⟩
  · intro i r hi hne
    rw [List.getElem?_map, hi]
    simp [applyUpdate, hne]
  · intro i r hi
    rw [List.getElem?_map, hi]
    by_cases hc : r.id = id
    · exact ⟨applyUpdate body id r, rfl, by simp [applyUpdate, hc],
        by simp [applyUpdate, hc]⟩
    · exact ⟨applyUpdate body id r, rfl, by simp [applyUpdate, hc],
        by simp [applyUpdate, hc]⟩

/-- C8 witness: updating id 1 in the two-row table leaves the row with
id 2 untouched and preserves id 1's `id` and `created_at`. -/
theorem update_frame_other_rows_unchanged_witness :
    (titleInvalid (sampleBody (some ("T"))).title = false ∧
      sqlSelectById 1 sampleDb2.rows ≠ []) ∧
    (((updateCourse sampleDb2 1 (sampleBody (some ("T")))).1).rows.length
        = sampleDb2.rows.length ∧
      (∀ (i : Nat) (r : Course), sampleDb2.rows[i]? = some r → r.id ≠ 1 →
        ((updateCourse sampleDb2 1 (sampleBody (some ("T")))).1).rows[i]? = some r) ∧
      (∀ (i : Nat) (r : Course), sampleDb2.rows[i]? = some r →
        ∃ r2, ((updateCourse sampleDb2 1 (sampleBody (some ("T")))).1).rows[i]? = some r2 ∧
          r2.id = r.id ∧ r2.created_at = r.created_at)) :=
  ⟨⟨by decide, by decide⟩,
    update_frame_other_rows_unchanged sampleDb2 1 (sampleBody (some ("T")))
      (by decide) (by decide)⟩

/-- C9: the INSERT lists only the seven mutable columns, so a create's
outcome is identical for any two bodies agreeing on those columns — any
client-supplied `id` or `created_at` is ignored, and on success the stored
row's `id` comes from the sequence and its `created_at` from the clock. -/
theorem create_ignores_client_id_created_at (db : DB) (now : Nat) (b1 b2 : Body)
    (h1 : b1.title = b2.title) (h2 : b1.description = b2.description)
    (h3 : b1.long_description = b2.long_description) (h4 : b1.duration = b2.duration)
    (h5 : b1.price = b2.price) (h6 : b1.level = b2.level)
    (h7 : b1.image_url = b2.image_url) :
    createCourse db b1 now = createCourse db b2 now ∧
    (titleInvalid b1.title = false →
      (createCourse db b1 now).2 = Resp.created (mkCreated db b1 now) ∧
      (mkCreated db b1 now).id = db.seq ∧
      (mkCreated db b1 now).created_at = now) := by
  constructor
  · simp [createCourse, h1, h2, h3, h4, h5, h6, h7]
  · intro hv
    exact ⟨by rw [createCourse_success db b1 now hv], rfl, rfl⟩

/-- C9 witness: a body smuggling `id = 999` and `created_at = 777` creates
exactly what the same body without them creates, with store-assigned id. -/
theorem create_ignores_client_id_created_at_witness :
    ((sampleBodyWithClientId.title = (sampleBody (some ("T"))).title) ∧
      (sampleBodyWithClientId.description = (sampleBody (some ("T"))).description) ∧
      (sampleBodyWithClientId.long_description = (sampleBody (some ("T"))).long_description) ∧
      (sampleBodyWithClientId.duration = (sampleBody (some ("T"))).duration) ∧
      (sampleBodyWithClientId.price = (sampleBody (some ("T"))).price) ∧
      (sampleBodyWithClientId.level = (sampleBody (some ("T"))).level) ∧
      (sampleBodyWithClientId.image_url = (sampleBody (some ("T"))).image_url)) ∧
    (createCourse sampleDb2 sampleBodyWithClientId 42 =
        createCourse sampleDb2 (sampleBody (some ("T"))) 42 ∧
      (titleInvalid sampleBodyWithClientId.title = false →
        (createCourse sampleDb2 sampleBodyWithClientId 42).2 =
          Resp.created (mkCreated sampleDb2 sampleBodyWithClientId 42) ∧
        (mkCreated sampleDb2 sampleBodyWithClientId 42).id = sampleDb2.seq ∧
        (mkCreated sampleDb2 sampleBodyWithClientId 42).created_at = 42)) :=
  ⟨⟨rfl, rfl, rfl, rfl, rfl, rfl, rfl⟩,
    create_ignores_client_id_created_at sampleDb2 42 sampleBodyWithClientId
      (sampleBody (some ("T"))) rfl rfl rfl rfl rfl rfl rfl⟩

/-- C10: on a successful create every text field, the title included, is
stored exactly as received — trimming happens only inside the validation
check, so surrounding spaces survive in the stored row. -/
theorem create_stores_fields_verbatim (db : DB) (body : Body) (now : Nat) (t : String)
    (ht : body.title = some t) (hv : titleInvalid body.title = false) :
    (createCourse db body now).2 = Resp.created (mkCreated db body now) ∧
    ((createCourse db body now).1).rows = db.rows ++ [mkCreated db body now] ∧
    (mkCreated db body now).title = t ∧
    (mkCreated db body now).description = body.description ∧
    (mkCreated db body now).long_description = body.long_description ∧
    (mkCreated db body now).duration = body.duration ∧
    (mkCreated db body now).price = body.price ∧
    (mkCreated db body now).level = body.level ∧
    (mkCreated db body now).image_url = body.image_url := by
  have h := createCourse_success db body now hv
  refine ⟨by rw [h], by rw [h], ?_, rfl, rfl, rfl, rfl, rfl, rfl⟩
  simp [mkCreated, ht]

/-- C10 witness: the padded title `" x "` passes validation and is stored
with its surrounding spaces intact (it differs from its trimmed form). -/
theorem create_stores_fields_verbatim_witness :
    ((sampleBody (some (" x "))).title = some (" x ") ∧
      titleInvalid (sampleBody (some (" x "))).title = false) ∧
    ((createCourse sampleDb2 (sampleBody (some (" x "))) 42).2 =
        Resp.created (mkCreated sampleDb2 (sampleBody (some (" x "))) 42) ∧
      (mkCreated sampleDb2 (sampleBody (some (" x "))) 42).title = (" x ")) ∧
    jsTrim (" x ") ≠ (" x ") :=
  ⟨⟨rfl, by decide⟩,
    ⟨(create_stores_fields_verbatim sampleDb2 (sampleBody (some (" x "))) 42 (" x ")
        rfl (by decide)).1,
      (create_stores_fields_verbatim sampleDb2 (sampleBody (some (" x "))) 42 (" x ")
        rfl (by decide)).2.2.1⟩,
    by decide⟩

/-- C6: reset-sequence on the empty table succeeds with no row mutation
and no constraint drop, and restarts the sequence at 1, so the next
successful create yields id 1. -/
theorem reset_empty_no_mutation_next_id_one (db : DB) (h : db.rows = []) :
    (resetSequenceRun noFail db).resp = Resp.resetOkEmpty ∧
    ((resetSequenceRun noFail db).resp).status = 200 ∧
    ((resetSequenceRun noFail db).resp).isSuccess = true ∧
    (resetSequenceRun noFail db).caught = false ∧
    (resetSequenceRun noFail db).db.rows = db.rows ∧
    (resetSequenceRun noFail db).db.seq = 1 ∧
    Query.dropPkeyConstraint ∉ (resetSequenceRun noFail db).trace ∧
    ∀ body now, titleInvalid body.title = false →
      (createCourse (resetSequenceRun noFail db).db body now).2 =
        Resp.created (mkCreated (resetSequenceRun noFail db).db body now) ∧
      (mkCreated (resetSequenceRun noFail db).db body now).id = 1 := by
  have hrun := resetSequenceRun_noFail_empty db h
  rw [hrun]
  refine ⟨rfl, rfl, rfl, rfl, rfl, rfl, by simp, ?_⟩
  intro body now hv
  exact ⟨by rw [createCourse_success _ body now hv], rfl⟩

/-- C6 witness: the empty table with sequence at 5 is reset to yield id 1
next, with no rows touched and no constraint drop. -/
theorem reset_empty_no_mutation_next_id_one_witness :
    sampleEmptyDb.rows = [] ∧
    ((resetSequenceRun noFail sampleEmptyDb).resp = Resp.resetOkEmpty ∧
      ((resetSequenceRun noFail sampleEmptyDb).resp).status = 200 ∧
      ((resetSequenceRun noFail sampleEmptyDb).resp).isSuccess = true ∧
      (resetSequenceRun noFail sampleEmptyDb).caught = false ∧
      (resetSequenceRun noFail sampleEmptyDb).db.rows = sampleEmptyDb.rows ∧
      (resetSequenceRun noFail sampleEmptyDb).db.seq = 1 ∧
      Query.dropPkeyConstraint ∉ (resetSequenceRun noFail sampleEmptyDb).trace ∧
      ∀ body now, titleInvalid body.title = false →
        (createCourse (resetSequenceRun noFail sampleEmptyDb).db body now).2 =
          Resp.created (mkCreated (resetSequenceRun noFail sampleEmptyDb).db body now) ∧
        (mkCreated (resetSequenceRun noFail sampleEmptyDb).db body now).id = 1) :=
  ⟨rfl, reset_empty_no_mutation_next_id_one sampleEmptyDb rfl⟩

/-- C5 counterexample: on the empty table the run succeeds (HTTP 200,
`success: true`) yet the response body contains no `totalCourses` and no
`nextId`, contradicting the claim at N = 0. -/
theorem reset_empty_success_lacks_totals :
    ((resetSequenceRun noFail sampleEmptyDb).resp).status = 200 ∧
    ((resetSequenceRun noFail sampleEmptyDb).resp).isSuccess = true ∧
    ((resetSequenceRun noFail sampleEmptyDb).resp).totalCourses = none ∧
    ((resetSequenceRun noFail sampleEmptyDb).resp).totalCourses ≠ some 0 ∧
    ((resetSequenceRun noFail sampleEmptyDb).resp).nextId = none ∧
    ((resetSequenceRun noFail sampleEmptyDb).resp).nextId ≠ some 1 := by
  decide

/-- C5 (amended): a succeeding reset-sequence run on a nonempty table of
N courses responds 200 with `totalCourses = N` and `nextId = N + 1`; on
an empty table the run succeeds but the body carries neither field. -/
theorem reset_success_response_totals (db : DB) (hne : db.rows ≠ []) :
    (resetSequenceRun noFail db).caught = false ∧
    ((resetSequenceRun noFail db).resp).totalCourses = some db.rows.length ∧
    ((resetSequenceRun noFail db).resp).nextId = some (db.rows.length + 1) ∧
    ((resetSequenceRun noFail db).resp).status = 200 := by
  have hlen : (sortByCreatedAt db.rows).length = db.rows.length :=
    (List.perm_insertionSort _ db.rows).length_eq
  have hlen0 : ¬ ((sortByCreatedAt db.rows).length = 0) := by
    rw [hlen]
    exact fun h0 => hne (List.length_eq_zero.mp h0)
  obtain ⟨db1, tr1, k1, hL⟩ := resetLoop_ok_of_noFail (sortByCreatedAt db.rows) 1 2
    { db with hasPkey := false } [Query.selectAllByCreatedAt, Query.dropPkeyConstraint]
  have hno : ∀ k, noFail k = false := fun _ => rfl
  simp [resetSequenceRun, hno, hlen0, hL, hlen, hne, Resp.totalCourses, Resp.nextId,
    Resp.status]

/-- C5 (amended) witness: the three-row table gets `totalCourses = 3` and
`nextId = 4`. -/
theorem reset_success_response_totals_witness :
    sampleDb379.rows ≠ [] ∧
    ((resetSequenceRun noFail sampleDb379).caught = false ∧
      ((resetSequenceRun noFail sampleDb379).resp).totalCourses = some sampleDb379.rows.length ∧
      ((resetSequenceRun noFail sampleDb379).resp).nextId = some (sampleDb379.rows.length + 1) ∧
      ((resetSequenceRun noFail sampleDb379).resp).status = 200) :=
  ⟨by decide, reset_success_response_totals sampleDb379 (by decide)⟩

/-- C1: on a nonempty table satisfying the data-model invariants (rows in
creation order with nondecreasing `created_at`, ids strictly increasing —
the store assigns ids from a monotone sequence — and ids positive),
reset-sequence gives the i-th row in creation order id i+1 keeping every
other field, so the ids become exactly 1..N in the same relative order,
the sequence restarts at N+1, and the next successful create yields id
N+1. -/
theorem reset_sequence_renumbers_to_one_through_n (db : DB)
    (hne : db.rows ≠ [])
    (hsort : db.rows.Pairwise (fun a b => a.created_at ≤ b.created_at))
    (hinc : db.rows.Pairwise (fun a b => a.id < b.id))
    (hpos : ∀ r ∈ db.rows, 1 ≤ r.id) :
    (resetSequenceRun noFail db).db.rows = reindexFrom 1 db.rows ∧
    ((resetSequenceRun noFail db).db.rows).map Course.id
      = List.range' 1 db.rows.length ∧
    (resetSequenceRun noFail db).db.seq = db.rows.length + 1 ∧
    (resetSequenceRun noFail db).resp
      = Resp.resetOk db.rows.length (db.rows.length + 1) ∧
    ∀ body now, titleInvalid body.title = false →
      (createCourse (resetSequenceRun noFail db).db body now).2 =
        Resp.created (mkCreated (resetSequenceRun noFail db).db body now) ∧
      (mkCreated (resetSequenceRun noFail db).db body now).id = db.rows.length + 1 := by
  have hrun := resetSequenceRun_noFail_nonempty db hne hsort hinc hpos
  rw [hrun]
  refine ⟨rfl, reindexFrom_map_id 1 db.rows, rfl, rfl, ?_⟩
  intro body now hv
  exact ⟨by rw [createCourse_success _ body now hv], rfl⟩

/-- C1 witness: ids `{3,7,9}` created in that order become `[1,2,3]` and
the next create yields id 4. -/
theorem reset_sequence_renumbers_witness :
    (sampleDb379.rows ≠ [] ∧
      sampleDb379.rows.Pairwise (fun a b => a.created_at ≤ b.created_at) ∧
      sampleDb379.rows.Pairwise (fun a b => a.id < b.id) ∧
      ∀ r ∈ sampleDb379.rows, 1 ≤ r.id) ∧
    ((resetSequenceRun noFail sampleDb379).db.rows = reindexFrom 1 sampleDb379.rows ∧
      ((resetSequenceRun noFail sampleDb379).db.rows).map Course.id
        = List.range' 1 sampleDb379.rows.length ∧
      (resetSequenceRun noFail sampleDb379).db.seq = sampleDb379.rows.length + 1 ∧
      (resetSequenceRun noFail sampleDb379).resp
        = Resp.resetOk sampleDb379.rows.length (sampleDb379.rows.length + 1) ∧
      ∀ body now, titleInvalid body.title = false →
        (createCourse (resetSequenceRun noFail sampleDb379).db body now).2 =
          Resp.created (mkCreated (resetSequenceRun noFail sampleDb379).db body now) ∧
        (mkCreated (resetSequenceRun noFail sampleDb379).db body now).id
          = sampleDb379.rows.length + 1) :=
  ⟨⟨by decide, by decide, by decide, by decide⟩,
    reset_sequence_renumbers_to_one_through_n sampleDb379
      (by decide) (by decide) (by decide) (by decide)⟩

/-- C2: whenever any statement of the reset-sequence procedure fails — in
particular any failure after the primary key constraint was dropped — the
catch handler attempts to re-add `courses_pkey` as the last statement
before responding, and the error is surfaced as an HTTP 500 error
envelope, whether or not the restore attempt itself succeeds. -/
theorem reset_failure_restores_pkey_and_surfaces_error
    (failAt : Nat → Bool) (db : DB)
    (h : (resetSequenceRun failAt db).caught = true) :
    (resetSequenceRun failAt db).restoreAttempted = true ∧
    ((resetSequenceRun failAt db).trace).getLast? = some Query.addPkeyConstraint ∧
    Query.addPkeyConstraint ∈ (resetSequenceRun failAt db).trace ∧
    (resetSequenceRun failAt db).resp = Resp.err500 ("Failed to reset sequence") ∧
    ((resetSequenceRun failAt db).resp).status = 500 ∧
    ((resetSequenceRun failAt db).resp).isSuccess = false := by
  rcases resetSequenceRun_catch_or_ok failAt db with ⟨db0, tr, k, hE⟩ | hOk
  · rw [hE]
    refine ⟨rfl, ?_, ?_, rfl, rfl, rfl⟩
    · show (tr ++ [Query.addPkeyConstraint]).getLast? = some Query.addPkeyConstraint
      simp
    · show Query.addPkeyConstraint ∈ tr ++ [Query.addPkeyConstraint]
      simp
  · rw [hOk] at h
    cases h

/-- C2 witness: failing the second UPDATE of the loop (statement 3, after
the constraint drop) triggers the restore attempt and a 500 response. -/
theorem reset_failure_restores_pkey_witness :
    (resetSequenceRun failAtThree sampleDb379).caught = true ∧
    ((resetSequenceRun failAtThree sampleDb379).restoreAttempted = true ∧
      ((resetSequenceRun failAtThree sampleDb379).trace).getLast?
        = some Query.addPkeyConstraint ∧
      Query.addPkeyConstraint ∈ (resetSequenceRun failAtThree sampleDb379).trace ∧
      (resetSequenceRun failAtThree sampleDb379).resp
        = Resp.err500 ("Failed to reset sequence") ∧
      ((resetSequenceRun failAtThree sampleDb379).resp).status = 500 ∧
      ((resetSequenceRun failAtThree sampleDb379).resp).isSuccess = false) :=
  ⟨by decide, reset_failure_restores_pkey_and_surfaces_error failAtThree sampleDb379
    (by decide)⟩
